import Mathlib

/-!
Shallow embedding of the event-registration engine of the django_jointoit
repository (src/events/models.py and src/events/views.py).

Timestamps are modelled as naturals, users by their numeric ids.  The
registration table is a list of `EventRegistration` rows together with the
next fresh primary key.  Each definition mirrors one source function or one
view action; the view actions `register`, `unregister` and `attendees` are
translated statement by statement from `EventViewSet` in src/events/views.py.
-/

namespace EventsApp

abbrev Time := Nat

abbrev UserId := Nat

/-- The `Event` model (src/events/models.py, class Event).  `max_attendees`
is a nullable integer column (`null=True`); the `MinValueValidator(1)` is a
form-level validator, so the storage type itself admits any integer. -/
structure Event where
  id : Nat
  title : String
  descr : String
  date : Time
  location : String
  organizer : UserId
  max_attendees : Option Nat
  is_active : Bool
  created_at : Time
  updated_at : Time
deriving Repr, DecidableEq

/-- The `EventRegistration` model (src/events/models.py, class
EventRegistration): user and event foreign keys, `registered_at` set on
insert (`auto_now_add=True`), cancellation flag and timestamp. -/
structure EventRegistration where
  id : Nat
  user : UserId
  event : Nat
  registered_at : Time
  is_cancelled : Bool
  cancelled_at : Option Time
deriving Repr, DecidableEq

/-- The registration table: the stored rows plus the next fresh primary
key handed out on INSERT. -/
structure DB where
  regs : List EventRegistration
  nextId : Nat
deriving Repr, DecidableEq

def DB.empty : DB := ⟨[], 0⟩

/-- Python truthiness of a nullable integer field: `None` and `0` are
falsy, every other value truthy (used by `if self.max_attendees:` and
`if event.max_attendees and ...`). -/
def pyTruthy : Option Nat → Bool
  | none => false
  | some n => n != 0

/-- `Event.is_past` (models.py): `self.date < timezone.now()`. -/
def Event.is_past (e : Event) (now : Time) : Bool :=
  decide (e.date < now)

/-- `Event.attendees_count` (models.py):
`self.registrations.filter(is_cancelled=False).count()`. -/
def Event.attendees_count (e : Event) (db : DB) : Nat :=
  (db.regs.filter (fun r => r.event == e.id && !r.is_cancelled)).length

/-- `Event.available_spots` (models.py):
`if self.max_attendees: return max(0, self.max_attendees - self.attendees_count)`,
`return None` otherwise.  The subtraction is over Python ints, so it is
modelled over `Int` with the explicit `max 0` clamp. -/
def Event.available_spots (e : Event) (db : DB) : Option Int :=
  if pyTruthy e.max_attendees then
    some (max 0 ((e.max_attendees.getD 0 : Int) - (e.attendees_count db : Int)))
  else
    none

/-- `EventRegistration.cancel` (models.py): sets `is_cancelled = True` and
`cancelled_at = timezone.now()`, then saves the row. -/
def EventRegistration.cancel (r : EventRegistration) (now : Time) : EventRegistration :=
  { r with is_cancelled := true, cancelled_at := some now }

/-- `EventRegistration.objects.get(user=.., event=..)`-style lookup of the
row for a (user, event) pair, in table order. -/
def findRegistration (user : UserId) (eid : Nat) (db : DB) : Option EventRegistration :=
  db.regs.find? (fun r => r.user == user && r.event == eid)

/-- `registration.save()`: writes the row back under its primary key. -/
def updateReg (db : DB) (r' : EventRegistration) : DB :=
  { db with regs := db.regs.map (fun x => if x.id == r'.id then r' else x) }

/-- The outcomes of `EventViewSet.register` (views.py): the four 400
responses, each with its own `detail` string, and the 201 success carrying
the (created or reactivated) registration row. -/
inductive RegisterOutcome where
  | eventPast
  | eventInactive
  | eventFull
  | alreadyRegistered
  | registered (r : EventRegistration)
deriving Repr, DecidableEq

/-- The `detail` string of each 400 response of `register` (views.py). -/
def RegisterOutcome.detail : RegisterOutcome → Option String
  | .eventPast => some "Cannot register for past events."
  | .eventInactive => some "This event is not active."
  | .eventFull => some "This event is full."
  | .alreadyRegistered => some "You are already registered for this event."
  | .registered _ => none

/-- The HTTP status of each `register` response (views.py). -/
def RegisterOutcome.httpStatus : RegisterOutcome → Nat
  | .registered _ => 201
  | _ => 400

/-- The three guard statements at the top of `EventViewSet.register`
(views.py lines 432-448), in source order: past event, inactive event,
capacity (`if event.max_attendees and event.attendees_count >= event.max_attendees`).
Returns the error response of the first failing guard, `none` if all pass.
This phase only reads the store. -/
def registerCheck (now : Time) (e : Event) (db : DB) : Option RegisterOutcome :=
  if e.is_past now then some .eventPast
  else if !e.is_active then some .eventInactive
  else if pyTruthy e.max_attendees &&
      decide (e.attendees_count db ≥ e.max_attendees.getD 0) then some .eventFull
  else none

/-- The two reactivation assignments of `register` (views.py lines
463-464): `registration.is_cancelled = False`,
`registration.cancelled_at = None`. -/
def reactivate (r : EventRegistration) : EventRegistration :=
  { r with is_cancelled := false, cancelled_at := none }

/-- The mutation phase of `EventViewSet.register` (views.py lines 450-471):
`get_or_create` on (user, event), then the `not created` branches — an
existing non-cancelled row yields the already-registered 400, an existing
cancelled row is reactivated in place (`is_cancelled = False`,
`cancelled_at = None`, save), and otherwise a fresh row was inserted with
`registered_at` set on insert. -/
def registerCommit (now : Time) (user : UserId) (e : Event) (db : DB) :
    RegisterOutcome × DB :=
  match findRegistration user e.id db with
  | some r =>
    if !r.is_cancelled then
      (.alreadyRegistered, db)
    else
      (.registered (reactivate r), updateReg db (reactivate r))
  | none =>
    let r : EventRegistration :=
      { id := db.nextId, user := user, event := e.id,
        registered_at := now, is_cancelled := false, cancelled_at := none }
    (.registered r, { regs := db.regs ++ [r], nextId := db.nextId + 1 })

/-- `EventViewSet.register` (views.py lines 429-471): the guards in source
order, then the get-or-create mutation.  The notification enqueue has no
effect on the store or the response. -/
def register (now : Time) (user : UserId) (e : Event) (db : DB) :
    RegisterOutcome × DB :=
  match registerCheck now e db with
  | some err => (err, db)
  | none => registerCommit now user e db

/-- The outcomes of `EventViewSet.unregister` (views.py): the 400 response
when no non-cancelled registration exists, and the 200 confirmation. -/
inductive UnregisterOutcome where
  | notRegistered
  | unregistered
deriving Repr, DecidableEq

/-- The lookup predicate of `unregister`:
`EventRegistration.objects.get(user=.., event=.., is_cancelled=False)`. -/
def activeRegPred (user : UserId) (eid : Nat) (r : EventRegistration) : Bool :=
  r.user == user && r.event == eid && !r.is_cancelled

/-- `EventViewSet.unregister` (views.py lines 507-530): look up the
non-cancelled registration for (user, event); on `DoesNotExist` return the
400 response without touching the store, otherwise `registration.cancel()`. -/
def unregister (now : Time) (user : UserId) (e : Event) (db : DB) :
    UnregisterOutcome × DB :=
  match db.regs.find? (activeRegPred user e.id) with
  | none => (.notRegistered, db)
  | some r => (.unregistered, updateReg db (r.cancel now))

/-- The outcomes of `EventViewSet.attendees` (views.py): the 403 response
for a non-organizer caller, and the 200 list of rows. -/
inductive AttendeesOutcome where
  | forbidden
  | ok (regs : List EventRegistration)
deriving Repr, DecidableEq

/-- `EventViewSet.attendees` (views.py lines 574-593): 403 unless the
caller is the organizer, otherwise the event's registrations filtered by
`is_cancelled=False`. -/
def attendees (caller : UserId) (e : Event) (db : DB) : AttendeesOutcome :=
  if e.organizer != caller then
    .forbidden
  else
    .ok (db.regs.filter (fun r => r.event == e.id && !r.is_cancelled))

/-- One API call against the registration engine: a `register` or an
`unregister` request, with the request time, the authenticated user and
the target event. -/
inductive Op where
  | reg (now : Time) (user : UserId) (e : Event)
  | unreg (now : Time) (user : UserId) (e : Event)

/-- The store after serving one request. -/
def applyOp (db : DB) : Op → DB
  | .reg now user e => (register now user e db).2
  | .unreg now user e => (unregister now user e db).2

/-- The store after serving a sequence of requests, starting from the
empty registration table. -/
def runOps (ops : List Op) : DB :=
  ops.foldl applyOp DB.empty

/-- Well-formedness of the registration table: distinct rows carry
distinct (user, event) pairs (the `unique_together` constraint of
src/events/models.py) and distinct primary keys, and every stored key is
below the next fresh key. -/
def DB.WF (db : DB) : Prop :=
  db.regs.Pairwise (fun a b => a.user ≠ b.user ∨ a.event ≠ b.event) ∧
  db.regs.Pairwise (fun a b => a.id ≠ b.id) ∧
  ∀ r ∈ db.regs, r.id < db.nextId

/-- Result of a `get_or_create` call on the registration table: an
existing row was found (after the recorded number of lookup retries), a
fresh row was inserted, or the uniqueness-constraint error is surfaced to
the caller after the recorded number of retries. -/
inductive GetOrCreateResult where
  | found (r : EventRegistration) (retries : Nat)
  | created (r : EventRegistration)
  | conflictError (retries : Nat)
deriving Repr, DecidableEq

/-- How many times the logical lookup was retried before the result. -/
def GetOrCreateResult.retryCount : GetOrCreateResult → Nat
  | .found _ k => k
  | .created _ => 0
  | .conflictError k => k

/-- Modelled from the spec: the persistence layer's `get_or_create`
operation invoked at src/events/views.py line 450 is library code that is
not part of this repository's sources; its recovery behaviour is modelled
from the spec sentence "Unexpected persistence failures (e.g., constraint
violation races) are recovered by retrying the single logical operation
once under the uniqueness constraint before surfacing a generic conflict
error."  `race` is the environment's choice: `none` means no concurrent
insert interferes; `some v` means the INSERT hits the (user, event)
uniqueness constraint because a concurrent transaction committed first,
and `v` is what the single retried lookup then sees (`some r` — the
racing row `r`, now visible, so the operation recovers; `none` — still no
visible row, so the conflict error surfaces to the caller). -/
def get_or_create (now : Time) (user : UserId) (eid : Nat) (db : DB)
    (race : Option (Option EventRegistration)) : GetOrCreateResult × DB :=
  match findRegistration user eid db with
  | some r => (.found r 0, db)
  | none =>
    match race with
    | none =>
      let r : EventRegistration :=
        { id := db.nextId, user := user, event := eid,
          registered_at := now, is_cancelled := false, cancelled_at := none }
      (.created r, { regs := db.regs ++ [r], nextId := db.nextId + 1 })
    | some (some r) => (.found r 1, { db with regs := db.regs ++ [r] })
    | some none => (.conflictError 1, db)

/-- Two `register` requests for the same event racing each other under the
shared-nothing request model of views.py: both requests evaluate the guard
phase (including the capacity read) against the same store snapshot before
either commits its insert — the interleaving is possible because the view
wraps the count and the insert in no transaction or lock. -/
def interleavedRegisterPair (now : Time) (u1 u2 : UserId) (e : Event) (db : DB) : DB :=
  let c1 := registerCheck now e db
  let c2 := registerCheck now e db
  let db1 := match c1 with
    | some _ => db
    | none => (registerCommit now u1 e db).2
  match c2 with
  | some _ => db1
  | none => (registerCommit now u2 e db1).2

/-! Concrete fixtures used by the witness theorems. -/

def wEvent : Event := ⟨1, "", "", 10, "", 7, some 1, true, 0, 0⟩

def wEventInactive : Event := ⟨1, "", "", 10, "", 7, some 1, false, 0, 0⟩

def wEventNoCap : Event := ⟨1, "", "", 10, "", 7, none, true, 0, 0⟩

def wEventZero : Event := ⟨1, "", "", 10, "", 7, some 0, true, 0, 0⟩

def wRow : EventRegistration := ⟨0, 1, 1, 5, false, none⟩

def wRowC : EventRegistration := ⟨0, 1, 1, 5, true, some 6⟩

def wDB : DB := ⟨[wRow], 1⟩

def wDBC : DB := ⟨[wRowC], 1⟩

/-! Helper lemmas about the store operations. -/

theorem updateReg_length (db : DB) (r' : EventRegistration) :
    (updateReg db r').regs.length = db.regs.length := by
  simp [updateReg]

theorem updateReg_ids (db : DB) (r' : EventRegistration) :
    (updateReg db r').regs.map (fun x => x.id) = db.regs.map (fun x => x.id) := by
  simp only [updateReg, List.map_map]
  refine List.map_congr_left (fun x hx => ?_)
  by_cases h : x.id = r'.id
  · simp [Function.comp, h]
  · simp [Function.comp, h]

theorem registerCommit_fst_ne_eventFull (now : Time) (user : UserId) (e : Event) (db : DB) :
    (registerCommit now user e db).1 ≠ .eventFull := by
  unfold registerCommit
  cases h : findRegistration user e.id db with
  | none => simp
  | some r => by_cases hc : r.is_cancelled <;> simp [hc]

/-- C1: the `register` guards are evaluated in the fixed source order —
past event, inactive event, full event, already registered — the first
failing guard alone determines the error (in particular a past event
yields `eventPast` whatever the capacity and active flag say), and the
four error outcomes, as well as their `detail` strings, are pairwise
distinct. -/
theorem register_precondition_order (now : Time) (user : UserId) (e : Event) (db : DB) :
    (e.is_past now = true → register now user e db = (.eventPast, db)) ∧
    (e.is_past now = false → e.is_active = false →
      register now user e db = (.eventInactive, db)) ∧
    (e.is_past now = false → e.is_active = true →
      (pyTruthy e.max_attendees &&
        decide (e.attendees_count db ≥ e.max_attendees.getD 0)) = true →
      register now user e db = (.eventFull, db)) ∧
    (e.is_past now = false → e.is_active = true →
      (pyTruthy e.max_attendees &&
        decide (e.attendees_count db ≥ e.max_attendees.getD 0)) = false →
      ∀ r, findRegistration user e.id db = some r → r.is_cancelled = false →
        register now user e db = (.alreadyRegistered, db)) ∧
    List.Pairwise (fun a b => a ≠ b)
      [RegisterOutcome.eventPast, .eventInactive, .eventFull, .alreadyRegistered] ∧
    List.Pairwise (fun a b => RegisterOutcome.detail a ≠ RegisterOutcome.detail b)
      [RegisterOutcome.eventPast, .eventInactive, .eventFull, .alreadyRegistered] := by
  refine ⟨?_, ?_, ?_, ?_, by decide, by decide⟩
  · intro h1
    simp [register, registerCheck, h1]
  · intro h1 h2
    simp [register, registerCheck, h1, h2]
  · intro h1 h2 h3
    simp [register, registerCheck, h1, h2, h3]
  · intro h1 h2 h3 r hr hc
    simp [register, registerCheck, registerCommit, h1, h2, h3, hr, hc]

/-- C1 witness: each guard outcome realised on a concrete store. -/
theorem register_precondition_order_witness :
    register 20 1 wEvent DB.empty = (.eventPast, DB.empty) ∧
    register 5 1 wEventInactive DB.empty = (.eventInactive, DB.empty) ∧
    register 5 2 wEvent wDB = (.eventFull, wDB) ∧
    register 5 1 wEventNoCap wDB = (.alreadyRegistered, wDB) :=
  ⟨(register_precondition_order 20 1 wEvent DB.empty).1 (by decide),
   (register_precondition_order 5 1 wEventInactive DB.empty).2.1 (by decide) (by decide),
   (register_precondition_order 5 2 wEvent wDB).2.2.1 (by decide) (by decide) (by decide),
   (register_precondition_order 5 1 wEventNoCap wDB).2.2.2.1 (by decide) (by decide)
     (by decide) wRow (by decide) (by decide)⟩

/-- C2: when the guards pass and a cancelled registration for
(user, event) exists, `register` reactivates that same row in place:
`is_cancelled` is cleared, `cancelled_at` is nulled, the row keeps its
primary key and its original `registered_at`, and the table keeps the
same length and the same row ids (no new row). -/
theorem register_reactivates_cancelled_row (now : Time) (user : UserId) (e : Event)
    (db : DB) (r : EventRegistration)
    (hchk : registerCheck now e db = none)
    (hfind : findRegistration user e.id db = some r)
    (hcan : r.is_cancelled = true) :
    register now user e db = (.registered (reactivate r), updateReg db (reactivate r)) ∧
    (reactivate r).id = r.id ∧
    (reactivate r).registered_at = r.registered_at ∧
    (reactivate r).is_cancelled = false ∧
    (reactivate r).cancelled_at = none ∧
    (updateReg db (reactivate r)).regs.length = db.regs.length ∧
    (updateReg db (reactivate r)).regs.map (fun x => x.id) = db.regs.map (fun x => x.id) ∧
    (updateReg db (reactivate r)).nextId = db.nextId := by
  refine ⟨?_, rfl, rfl, rfl, rfl, updateReg_length db _, updateReg_ids db _, rfl⟩
  simp [register, hchk, registerCommit, hfind, hcan]

/-- C2 witness: reactivation of a concrete cancelled row. -/
theorem register_reactivates_cancelled_row_witness :
    register 7 1 wEvent wDBC =
      (.registered (reactivate wRowC), updateReg wDBC (reactivate wRowC)) ∧
    (reactivate wRowC).id = wRowC.id ∧
    (reactivate wRowC).registered_at = wRowC.registered_at ∧
    (reactivate wRowC).is_cancelled = false ∧
    (reactivate wRowC).cancelled_at = none ∧
    (updateReg wDBC (reactivate wRowC)).regs.length = wDBC.regs.length ∧
    (updateReg wDBC (reactivate wRowC)).regs.map (fun x => x.id) =
      wDBC.regs.map (fun x => x.id) ∧
    (updateReg wDBC (reactivate wRowC)).nextId = wDBC.nextId :=
  register_reactivates_cancelled_row 7 1 wEvent wDBC wRowC (by decide) (by decide) (by decide)

/-- C4: `unregister` returns the not-registered error and leaves the store
untouched whenever no non-cancelled registration for (user, event) exists —
both for a never-registered pair and for an already-cancelled one — and
otherwise marks the found registration cancelled at the current time,
keeping its identity and `registered_at`. -/
theorem unregister_spec (now : Time) (user : UserId) (e : Event) (db : DB) :
    ((∀ r ∈ db.regs, r.user = user → r.event = e.id → r.is_cancelled = true) →
      unregister now user e db = (.notRegistered, db)) ∧
    (∀ r, db.regs.find? (activeRegPred user e.id) = some r →
      unregister now user e db = (.unregistered, updateReg db (r.cancel now)) ∧
      (r.cancel now).is_cancelled = true ∧
      (r.cancel now).cancelled_at = some now ∧
      (r.cancel now).id = r.id ∧
      (r.cancel now).registered_at = r.registered_at) := by
  constructor
  · intro h
    have hnone : db.regs.find? (activeRegPred user e.id) = none := by
      rw [List.find?_eq_none]
      intro x hx hpx
      simp only [activeRegPred, Bool.and_eq_true, beq_iff_eq, Bool.not_eq_true'] at hpx
      exact absurd (h x hx hpx.1.1 hpx.1.2) (by simp [hpx.2])
    simp [unregister, hnone]
  · intro r hr
    exact ⟨by simp [unregister, hr], rfl, rfl, rfl, rfl⟩

/-- C4 witness: the not-registered error on an already-cancelled row and
on an empty store, and a successful cancellation. -/
theorem unregister_spec_witness :
    unregister 8 1 wEvent wDBC = (.notRegistered, wDBC) ∧
    unregister 8 1 wEvent DB.empty = (.notRegistered, DB.empty) ∧
    (unregister 8 1 wEvent wDB = (.unregistered, updateReg wDB (wRow.cancel 8)) ∧
      (wRow.cancel 8).is_cancelled = true ∧
      (wRow.cancel 8).cancelled_at = some 8 ∧
      (wRow.cancel 8).id = wRow.id ∧
      (wRow.cancel 8).registered_at = wRow.registered_at) :=
  ⟨(unregister_spec 8 1 wEvent wDBC).1 (by decide),
   (unregister_spec 8 1 wEvent DB.empty).1 (by decide),
   (unregister_spec 8 1 wEvent wDB).2 wRow (by decide)⟩

/-- C5: for an event that is neither past nor inactive, `register` fails
with the full-event error exactly when `max_attendees` is set (the data
model keeps it ≥ 1 when present) and the count of non-cancelled
registrations read from the current store is at least `max_attendees`;
appending a cancelled row to the store never changes that count. -/
theorem register_full_iff (now : Time) (user : UserId) (e : Event) (db : DB)
    (hpast : e.is_past now = false) (hact : e.is_active = true)
    (hvalid : e.max_attendees = none ∨ ∃ n, e.max_attendees = some n ∧ 1 ≤ n) :
    ((register now user e db).1 = .eventFull ↔
      ∃ n, e.max_attendees = some n ∧ n ≤ e.attendees_count db) ∧
    (∀ r, r.is_cancelled = true →
      Event.attendees_count e ⟨db.regs ++ [r], db.nextId⟩ = e.attendees_count db) := by
  constructor
  · rcases hvalid with hnone | ⟨n, hn, hpos⟩
    · simp only [register, registerCheck, hpast, hact, hnone]
      simp only [pyTruthy, Bool.false_and, Bool.not_true, if_neg, if_false]
      constructor
      · intro h
        exact absurd h (by simpa using registerCommit_fst_ne_eventFull now user e db)
      · rintro ⟨n, hn, -⟩
        simp at hn
    · have hpt : pyTruthy (some n) = true := by
        simp [pyTruthy]
        omega
      by_cases hfull : e.attendees_count db ≥ n
      · have hcond : (pyTruthy e.max_attendees &&
            decide (e.attendees_count db ≥ e.max_attendees.getD 0)) = true := by
          rw [hn]
          simp [hpt]
          exact hfull
        simp only [register, registerCheck, hpast, hact]
        simp only [Event.is_past] at hpast
        simp [hpast, hcond]
        exact ⟨n, hn, hfull⟩
      · have hcond : (pyTruthy e.max_attendees &&
            decide (e.attendees_count db ≥ e.max_attendees.getD 0)) = false := by
          rw [hn]
          simp [hpt]
          omega
        simp only [register, registerCheck, hpast, hact]
        simp only [Event.is_past] at hpast
        simp [hpast, hcond]
        constructor
        · intro h
          exact absurd h (registerCommit_fst_ne_eventFull now user e db)
        · rintro ⟨m, hm, hle⟩
          rw [hn] at hm
          cases hm
          omega
  · intro r hr
    simp [Event.attendees_count, List.filter_append, hr]

/-- C5 witness: a full event rejects, the same event with a free spot does
not, and a cancelled row does not count. -/
theorem register_full_iff_witness :
    ((register 5 2 wEvent wDB).1 = .eventFull ↔
      ∃ n, wEvent.max_attendees = some n ∧ n ≤ wEvent.attendees_count wDB) ∧
    (∀ r, r.is_cancelled = true →
      Event.attendees_count wEvent ⟨wDB.regs ++ [r], wDB.nextId⟩ =
        wEvent.attendees_count wDB) :=
  register_full_iff 5 2 wEvent wDB (by decide) (by decide)
    (Or.inr ⟨1, by decide, by decide⟩)

/-- C6: `available_spots` is `max_attendees − attendees_count` clamped at
zero (hence never negative) when `max_attendees` is present (the data
model keeps it ≥ 1 when present), and null — unbounded — when
`max_attendees` is null. -/
theorem available_spots_spec (e : Event) (db : DB)
    (hvalid : e.max_attendees = none ∨ ∃ n, e.max_attendees = some n ∧ 1 ≤ n) :
    (∀ n, e.max_attendees = some n →
      e.available_spots db = some (max 0 ((n : Int) - (e.attendees_count db : Int)))) ∧
    (∀ s, e.available_spots db = some s → 0 ≤ s) ∧
    (e.max_attendees = none → e.available_spots db = none) := by
  refine ⟨?_, ?_, ?_⟩
  · intro n hn
    rcases hvalid with hnone | ⟨m, hm, hpos⟩
    · rw [hnone] at hn
      cases hn
    · rw [hm] at hn
      cases hn
      have hpt : pyTruthy (some n) = true := by
        simp [pyTruthy]
        omega
      simp [Event.available_spots, hm, hpt]
  · intro s hs
    simp only [Event.available_spots] at hs
    by_cases ht : pyTruthy e.max_attendees = true
    · rw [if_pos ht] at hs
      cases hs
      exact le_max_left 0 _
    · rw [if_neg (by simpa using ht)] at hs
      cases hs
  · intro hnone
    simp [Event.available_spots, hnone, pyTruthy]

/-- C6 witness: a capacity-1 event with one attendee has zero spots, still
zero (not negative) with two attendees, and an uncapped event reports
null. -/
theorem available_spots_spec_witness :
    (∀ n, wEvent.max_attendees = some n →
      wEvent.available_spots wDB =
        some (max 0 ((n : Int) - (wEvent.attendees_count wDB : Int)))) ∧
    (∀ s, wEvent.available_spots wDB = some s → 0 ≤ s) ∧
    (wEvent.max_attendees = none → wEvent.available_spots wDB = none) :=
  available_spots_spec wEvent wDB (Or.inr ⟨1, by decide, by decide⟩)

/-- C7: the attendees listing is denied with the 403 outcome for every
caller other than the event's organizer, whatever the store holds (in
particular for a registrant), and for the organizer it returns exactly the
event's rows filtered to the non-cancelled ones, so no cancelled row ever
appears in the result. -/
theorem attendees_organizer_only (caller : UserId) (e : Event) (db : DB) :
    (caller ≠ e.organizer → attendees caller e db = .forbidden) ∧
    (caller = e.organizer →
      attendees caller e db =
        .ok (db.regs.filter (fun r => r.event == e.id && !r.is_cancelled))) ∧
    (∀ l, attendees caller e db = .ok l → ∀ r ∈ l, r.is_cancelled = false) := by
  refine ⟨?_, ?_, ?_⟩
  · intro h
    simp [attendees, bne_iff_ne, Ne.symm h]
  · intro h
    simp [attendees, h]
  · intro l hl r hr
    simp only [attendees] at hl
    by_cases h : e.organizer != caller
    · rw [if_pos h] at hl
      cases hl
    · rw [if_neg (by simpa using h)] at hl
      cases hl
      have := List.of_mem_filter hr
      simp only [Bool.and_eq_true, Bool.not_eq_true'] at this
      exact this.2

/-- C7 witness: the registrant (user 1) is denied on a store where it has
a live registration, and the organizer (user 7) gets exactly the
non-cancelled rows. -/
theorem attendees_organizer_only_witness :
    (1 ≠ wEvent.organizer → attendees 1 wEvent wDB = .forbidden) ∧
    ((7 : UserId) = wEvent.organizer →
      attendees 7 wEvent wDB =
        .ok (wDB.regs.filter (fun r => r.event == wEvent.id && !r.is_cancelled))) ∧
    ((attendees 1 wEvent wDB = .forbidden) ∧
      (∀ r ∈ wDB.regs.filter (fun r => r.event == wEvent.id && !r.is_cancelled),
        r.is_cancelled = false)) :=
  ⟨(attendees_organizer_only 1 wEvent wDB).1,
   (attendees_organizer_only 7 wEvent wDB).2.1,
   (attendees_organizer_only 1 wEvent wDB).1 (by decide),
   (attendees_organizer_only 7 wEvent wDB).2.2 _
     ((attendees_organizer_only 7 wEvent wDB).2.1 (by decide))⟩

/-- C8: when the INSERT of the single logical get-or-create hits the
(user, event) uniqueness constraint because of a race, the lookup is
retried exactly once: if the racing row is visible the operation recovers
and returns it, otherwise the generic conflict error is surfaced — and in
every case the operation is never retried more than once. -/
theorem get_or_create_retries_once (now : Time) (user : UserId) (eid : Nat) (db : DB)
    (race : Option (Option EventRegistration))
    (hmiss : findRegistration user eid db = none) :
    (race = none → ∃ r, (get_or_create now user eid db race).1 = .created r) ∧
    (∀ r, race = some (some r) → (get_or_create now user eid db race).1 = .found r 1) ∧
    (race = some none → (get_or_create now user eid db race).1 = .conflictError 1) ∧
    (∀ k, (get_or_create now user eid db race).1 = .conflictError k → k = 1) ∧
    (get_or_create now user eid db race).1.retryCount ≤ 1 := by
  refine ⟨?_, ?_, ?_, ?_, ?_⟩
  · intro h
    refine ⟨⟨db.nextId, user, eid, now, false, none⟩, ?_⟩
    simp [get_or_create, hmiss, h]
  · intro r h
    simp [get_or_create, hmiss, h]
  · intro h
    simp [get_or_create, hmiss, h]
  · intro k h
    match race with
    | none => simp [get_or_create, hmiss] at h
    | some (some r) => simp [get_or_create, hmiss] at h
    | some none =>
      simp [get_or_create, hmiss] at h
      omega
  · match race with
    | none => simp [get_or_create, hmiss, GetOrCreateResult.retryCount]
    | some (some r) => simp [get_or_create, hmiss, GetOrCreateResult.retryCount]
    | some none => simp [get_or_create, hmiss, GetOrCreateResult.retryCount]

/-- C8 witness: on an empty store, the clean insert, the recovered race
and the surfaced conflict, each after at most one retry. -/
theorem get_or_create_retries_once_witness :
    ((none : Option (Option EventRegistration)) = none →
      ∃ r, (get_or_create 5 1 1 DB.empty none).1 = .created r) ∧
    ((∀ r, (some (some wRow) : Option (Option EventRegistration)) = some (some r) →
      (get_or_create 5 1 1 DB.empty (some (some wRow))).1 = .found r 1) ∧
    ((some none : Option (Option EventRegistration)) = some none →
      (get_or_create 5 1 1 DB.empty (some none)).1 = .conflictError 1) ∧
    (∀ k, (get_or_create 5 1 1 DB.empty (some none)).1 = .conflictError k → k = 1) ∧
    (get_or_create 5 1 1 DB.empty (some none)).1.retryCount ≤ 1) :=
  ⟨(get_or_create_retries_once 5 1 1 DB.empty none (by decide)).1,
   (get_or_create_retries_once 5 1 1 DB.empty (some (some wRow)) (by decide)).2.1,
   (get_or_create_retries_once 5 1 1 DB.empty (some none) (by decide)).2.2.1,
   (get_or_create_retries_once 5 1 1 DB.empty (some none) (by decide)).2.2.2.1,
   (get_or_create_retries_once 5 1 1 DB.empty (some none) (by decide)).2.2.2.2⟩

/-- C9: the check-then-act race of `register` oversells capacity — on an
active future event with `max_attendees = 1` and an empty store, two
racing registrants (users 1 and 2) whose guard phases both read the store
before either commit can both insert, leaving two committed non-cancelled
registrations, which exceeds the capacity of one. -/
theorem capacity_race_oversells :
    wEvent.max_attendees = some 1 ∧
    wEvent.attendees_count (interleavedRegisterPair 5 1 2 wEvent DB.empty) = 2 ∧
    1 < wEvent.attendees_count (interleavedRegisterPair 5 1 2 wEvent DB.empty) := by
  refine ⟨rfl, by decide, by decide⟩

/-- C10: an event stored with `max_attendees = 0` — a value the model's
form validator is meant to exclude but the column admits — is treated by
`register` as having unlimited capacity (the full-event outcome is
unreachable for it), and its `available_spots` is null rather than 0. -/
theorem zero_max_attendees_unlimited (e : Event) (h : e.max_attendees = some 0) :
    (∀ now user db, (register now user e db).1 ≠ .eventFull) ∧
    (∀ db, e.available_spots db = none) := by
  constructor
  · intro now user db
    have hpt : pyTruthy e.max_attendees = false := by simp [pyTruthy, h]
    simp only [register, registerCheck, hpt, Bool.false_and]
    by_cases hp : e.is_past now
    · simp [hp]
    · by_cases ha : e.is_active
      · simpa [hp, ha] using registerCommit_fst_ne_eventFull now user e db
      · simp [hp, ha]
  · intro db
    have hpt : pyTruthy e.max_attendees = false := by simp [pyTruthy, h]
    simp [Event.available_spots, hpt]

/-- C10 witness: a concrete zero-capacity event never reports full and has
null available spots. -/
theorem zero_max_attendees_unlimited_witness :
    (∀ now user db, (register now user wEventZero db).1 ≠ .eventFull) ∧
    (∀ db, wEventZero.available_spots db = none) :=
  zero_max_attendees_unlimited wEventZero (by decide)

/-! Preservation of the table invariant by the engine operations. -/

theorem wf_id_inj {db : DB} (h : db.WF) {a b : EventRegistration}
    (ha : a ∈ db.regs) (hb : b ∈ db.regs) (hid : a.id = b.id) : a = b := by
  by_contra hne
  have hsym : Symmetric (fun a b : EventRegistration => a.id ≠ b.id) := by
    intro x y hxy
    exact hxy.symm
  exact h.2.1.forall hsym ha hb hne hid

theorem updateReg_WF {db : DB} {r r' : EventRegistration} (h : db.WF)
    (hr : r ∈ db.regs) (hid : r'.id = r.id) (huser : r'.user = r.user)
    (hev : r'.event = r.event) : (updateReg db r').WF := by
  have key : ∀ x ∈ db.regs,
      (if x.id == r'.id then r' else x).id = x.id ∧
      (if x.id == r'.id then r' else x).user = x.user ∧
      (if x.id == r'.id then r' else x).event = x.event := by
    intro x hx
    by_cases hxe : x.id = r'.id
    · have hxr : x = r := wf_id_inj h hx hr (by rw [hxe, hid])
      subst hxr
      rw [if_pos (beq_iff_eq.mpr hxe)]
      exact ⟨hid, huser, hev⟩
    · simp [hxe]
  refine ⟨?_, ?_, ?_⟩
  · simp only [updateReg]
    rw [List.pairwise_map]
    refine h.1.imp_of_mem ?_
    intro a b ha hb hab
    rcases key a ha with ⟨-, hau, hae⟩
    rcases key b hb with ⟨-, hbu, hbe⟩
    rcases hab with hu | he
    · exact Or.inl (by rw [hau, hbu]; exact hu)
    · exact Or.inr (by rw [hae, hbe]; exact he)
  · simp only [updateReg]
    rw [List.pairwise_map]
    refine h.2.1.imp_of_mem ?_
    intro a b ha hb hab
    rcases key a ha with ⟨hai, -, -⟩
    rcases key b hb with ⟨hbi, -, -⟩
    rw [hai, hbi]
    exact hab
  · simp only [updateReg]
    intro x hx
    rcases List.mem_map.mp hx with ⟨y, hy, rfl⟩
    rw [(key y hy).1]
    exact h.2.2 y hy

theorem register_WF (now : Time) (user : UserId) (e : Event) {db : DB} (h : db.WF) :
    ((register now user e db).2).WF := by
  unfold register
  cases registerCheck now e db with
  | some err => exact h
  | none =>
    unfold registerCommit
    cases hf : findRegistration user e.id db with
    | some r =>
      have hmem : r ∈ db.regs := List.mem_of_find?_eq_some hf
      by_cases hc : r.is_cancelled
      · simp only [hc, Bool.not_true, Bool.false_eq_true, if_false]
        exact updateReg_WF h hmem rfl rfl rfl
      · simp only [Bool.not_eq_true] at hc
        simp only [hc, Bool.not_false, if_true]
        exact h
    | none =>
      have hnone := List.find?_eq_none.mp hf
      refine ⟨?_, ?_, ?_⟩
      · rw [List.pairwise_append]
        refine ⟨h.1, List.pairwise_singleton _ _, ?_⟩
        intro a ha b hb
        rw [List.mem_singleton] at hb
        subst hb
        have hp := hnone a ha
        simp only [findRegistration, Bool.and_eq_true, beq_iff_eq, not_and] at hp ⊢
        by_cases hu : a.user = user
        · exact Or.inr (fun hev => hp hu hev)
        · exact Or.inl hu
      · rw [List.pairwise_append]
        refine ⟨h.2.1, List.pairwise_singleton _ _, ?_⟩
        intro a ha b hb
        rw [List.mem_singleton] at hb
        subst hb
        have := h.2.2 a ha
        simp only []
        omega
      · intro x hx
        rcases List.mem_append.mp hx with hx | hx
        · have := h.2.2 x hx
          simp only []
          omega
        · rw [List.mem_singleton] at hx
          subst hx
          simp only []
          omega

theorem unregister_WF (now : Time) (user : UserId) (e : Event) {db : DB} (h : db.WF) :
    ((unregister now user e db).2).WF := by
  unfold unregister
  cases hf : db.regs.find? (activeRegPred user e.id) with
  | none => exact h
  | some r =>
    have hmem : r ∈ db.regs := List.mem_of_find?_eq_some hf
    exact updateReg_WF h hmem rfl rfl rfl

theorem applyOp_WF {db : DB} (h : db.WF) (op : Op) : (applyOp db op).WF := by
  cases op with
  | reg now user e => exact register_WF now user e h
  | unreg now user e => exact unregister_WF now user e h

theorem DB.empty_WF : DB.empty.WF :=
  ⟨List.Pairwise.nil, List.Pairwise.nil, by intro r hr; cases hr⟩

theorem foldl_applyOp_WF : ∀ (ops : List Op) (db : DB), db.WF → (ops.foldl applyOp db).WF
  | [], _, h => h
  | op :: ops, db, h => foldl_applyOp_WF ops (applyOp db op) (applyOp_WF h op)

theorem runOps_WF (ops : List Op) : (runOps ops).WF :=
  foldl_applyOp_WF ops DB.empty DB.empty_WF

theorem countP_le_one_of_pairwise {α} {p : α → Bool} {l : List α}
    (h : l.Pairwise (fun a b => ¬(p a = true ∧ p b = true))) : l.countP p ≤ 1 := by
  induction h with
  | nil => simp
  | @cons a l hhead htail ih =>
    rw [List.countP_cons]
    by_cases hp : p a = true
    · have hz : l.countP p = 0 :=
        List.countP_eq_zero.mpr (fun x hx hpx => hhead x hx ⟨hp, hpx⟩)
      simp [hz, hp]
    · simp only [hp, if_false]
      simpa using ih

/-- C3: in every store reachable from the empty table by any sequence of
register and unregister requests, each (user, event) pair has at most one
registration row, and hence at most one non-cancelled row. -/
theorem at_most_one_registration_per_pair (ops : List Op) (u : UserId) (ev : Nat) :
    (runOps ops).regs.countP (fun r => r.user == u && r.event == ev) ≤ 1 ∧
    (runOps ops).regs.countP
      (fun r => r.user == u && r.event == ev && !r.is_cancelled) ≤ 1 := by
  have hwf := runOps_WF ops
  have h1 : (runOps ops).regs.countP (fun r => r.user == u && r.event == ev) ≤ 1 := by
    refine countP_le_one_of_pairwise (hwf.1.imp ?_)
    intro a b hab hp
    rcases hp with ⟨hpa, hpb⟩
    simp only [Bool.and_eq_true, beq_iff_eq] at hpa hpb
    rcases hab with hu | he
    · exact hu (hpa.1.trans hpb.1.symm)
    · exact he (hpa.2.trans hpb.2.symm)
  refine ⟨h1, le_trans (List.countP_mono_left ?_) h1⟩
  intro x hx hpx
  simp only [Bool.and_eq_true] at hpx ⊢
  exact hpx.1

end EventsApp
